import Mathlib

/-!
# TXLiteAVBase.h : frame descriptors and the custom stream data source

A shallow embedding of `Windows/SDK/liteav/Win32/include/TXLiteAVBase.h`.

* Pointers (`char*`, `void*`, `HANDLE`, function pointers) are addresses in `Nat`,
  with `0` standing for `NULL` / `nullptr`.
* `uint32_t` / `uint64_t` fields are `Nat`, `int` is `Int`.
* The stateful part (constructor, `setOnDestoryCallback`, destructor) is explicit
  state passing over the object's three private members together with the trace of
  Win32 calls and callback invocations performed so far.
* Callbacks are external code: the model records that one is invoked and with which
  argument.  `destructor` takes the callback not to touch the object it is told about;
  `destructorWith` has the code of the callback as a parameter, for the statements that
  depend on what the callback does to the object.
-/

set_option linter.dupNamespace false

namespace TXLiteAVBase

/-! ## Enumerations -/

/-- Enum `LiteAVVideoBufferType`. -/
inductive LiteAVVideoBufferType where
  | LiteAVVideoBufferType_Unknown
  | LiteAVVideoBufferType_Buffer
  | LiteAVVideoBufferType_Texture
  deriving DecidableEq, Repr

/-- Underlying values of `LiteAVVideoBufferType` (note `Texture = 3`). -/
def LiteAVVideoBufferType.toInt : LiteAVVideoBufferType → Int
  | .LiteAVVideoBufferType_Unknown => 0
  | .LiteAVVideoBufferType_Buffer => 1
  | .LiteAVVideoBufferType_Texture => 3

/-- Enum `LiteAVVideoPixelFormat`. -/
inductive LiteAVVideoPixelFormat where
  | LiteAVVideoPixelFormat_Unknown
  | LiteAVVideoPixelFormat_I420
  | LiteAVVideoPixelFormat_Texture_2D
  | LiteAVVideoPixelFormat_BGRA32
  deriving DecidableEq, Repr

/-- Underlying values of `LiteAVVideoPixelFormat`. -/
def LiteAVVideoPixelFormat.toInt : LiteAVVideoPixelFormat → Int
  | .LiteAVVideoPixelFormat_Unknown => 0
  | .LiteAVVideoPixelFormat_I420 => 1
  | .LiteAVVideoPixelFormat_Texture_2D => 2
  | .LiteAVVideoPixelFormat_BGRA32 => 3

/-- Enum `LiteAVAudioFrameFormat`. -/
inductive LiteAVAudioFrameFormat where
  | LiteAVAudioFrameFormatNone
  | LiteAVAudioFrameFormatPCM
  deriving DecidableEq, Repr

/-- Underlying values of `LiteAVAudioFrameFormat`. -/
def LiteAVAudioFrameFormat.toInt : LiteAVAudioFrameFormat → Int
  | .LiteAVAudioFrameFormatNone => 0
  | .LiteAVAudioFrameFormatPCM => 1

/-- Enum `LiteAVVideoRotation`. -/
inductive LiteAVVideoRotation where
  | LiteAVVideoRotation0
  | LiteAVVideoRotation90
  | LiteAVVideoRotation180
  | LiteAVVideoRotation270
  deriving DecidableEq, Repr

/-- Underlying values of `LiteAVVideoRotation`. -/
def LiteAVVideoRotation.toInt : LiteAVVideoRotation → Int
  | .LiteAVVideoRotation0 => 0
  | .LiteAVVideoRotation90 => 1
  | .LiteAVVideoRotation180 => 2
  | .LiteAVVideoRotation270 => 3

/-- Clockwise rotation in degrees, as documented next to each enumerator. -/
def LiteAVVideoRotation.degrees : LiteAVVideoRotation → Nat
  | .LiteAVVideoRotation0 => 0
  | .LiteAVVideoRotation90 => 90
  | .LiteAVVideoRotation180 => 180
  | .LiteAVVideoRotation270 => 270

/-! ## Frame descriptors -/

/-- Address of a byte buffer or of an opaque context; `0` is `NULL`. -/
abbrev Ptr := Nat

/-- The null pointer. -/
def NULL : Ptr := 0

/-- Struct `LiteAVVideoFrame`. -/
structure LiteAVVideoFrame where
  videoFormat : LiteAVVideoPixelFormat
  bufferType : LiteAVVideoBufferType
  data : Ptr
  textureId : Int
  length : Nat
  width : Nat
  height : Nat
  timestamp : Nat
  rotation : LiteAVVideoRotation
  deriving DecidableEq, Repr

/-- Default constructor `LiteAVVideoFrame::LiteAVVideoFrame()`.  The member initialiser
list has no entry for `bufferType`, so that member keeps whatever the storage held:
it is the argument `indeterminate`. -/
def LiteAVVideoFrame.LiteAVVideoFrame (indeterminate : LiteAVVideoBufferType) :
    LiteAVVideoFrame :=
  { videoFormat := .LiteAVVideoPixelFormat_Unknown
    bufferType := indeterminate
    data := NULL
    textureId := -1
    length := 0
    width := 640
    height := 360
    timestamp := 0
    rotation := .LiteAVVideoRotation0 }

/-- Struct `LiteAVAudioFrame`. -/
structure LiteAVAudioFrame where
  audioFormat : LiteAVAudioFrameFormat
  data : Ptr
  length : Nat
  sampleRate : Nat
  channel : Nat
  timestamp : Nat
  deriving DecidableEq, Repr

/-- Default constructor `LiteAVAudioFrame::LiteAVAudioFrame()`.  The member initialiser
list has no entry for `length`, so that member keeps whatever the storage held:
it is the argument `indeterminate`. -/
def LiteAVAudioFrame.LiteAVAudioFrame (indeterminate : Nat) : LiteAVAudioFrame :=
  { audioFormat := .LiteAVAudioFrameFormatNone
    data := NULL
    length := indeterminate
    sampleRate := 48000
    channel := 1
    timestamp := 0 }

/-! ## The data source: private members and observable events -/

/-- Win32 `HANDLE`; `0` is `nullptr`. -/
abbrev HANDLE := Nat

/-- The type `OnDestoryCallback`, a `void(*)(void*)`: the address of the function, `0` is
`nullptr`. -/
abbrev OnDestoryCallback := Nat

/-- What the member functions do to the outside world, in program order. -/
inductive Event where
  /-- `CreateMutex(nullptr, FALSE, nullptr)` returned the handle `h`. -/
  | CreateMutex (h : HANDLE)
  /-- `WaitForSingleObject(h, INFINITE)`. -/
  | WaitForSingleObject (h : HANDLE)
  /-- `ReleaseMutex(h)`. -/
  | ReleaseMutex (h : HANDLE)
  /-- `CloseHandle(h)`. -/
  | CloseHandle (h : HANDLE)
  /-- The call `callback(param)` through a stored function pointer. -/
  | invoke (callback : OnDestoryCallback) (param : Ptr)
  deriving DecidableEq, Repr

/-- The private data members of `ILiteAVStreamDataSource`. -/
structure ILiteAVStreamDataSource where
  m_hOnDestoryCallbackMutex : HANDLE
  m_pOnDestoryCallback : OnDestoryCallback
  m_pOnDestoryCallbackParam : Ptr
  deriving DecidableEq, Repr

/-- An object together with the events performed on its behalf so far. -/
structure Exec where
  self : ILiteAVStreamDataSource
  trace : List Event
  deriving DecidableEq, Repr

/-- Append one event to the trace. -/
def Exec.emit (e : Event) (r : Exec) : Exec :=
  { r with trace := r.trace ++ [e] }

/-- The default member initialisers: all three members are `nullptr`. -/
def ILiteAVStreamDataSource.defaultMembers : ILiteAVStreamDataSource :=
  { m_hOnDestoryCallbackMutex := 0
    m_pOnDestoryCallback := 0
    m_pOnDestoryCallbackParam := 0 }

/-- Constructor `ILiteAVStreamDataSource()`: the members get their default initialisers,
then the body stores the handle `created` that `CreateMutex` returned. -/
def ILiteAVStreamDataSource.ILiteAVStreamDataSource (created : HANDLE) : Exec :=
  { self := { ILiteAVStreamDataSource.defaultMembers with
              m_hOnDestoryCallbackMutex := created }
    trace := [Event.CreateMutex created] }

/-! ### `setOnDestoryCallback`, statement by statement -/

/-- Line `WaitForSingleObject(m_hOnDestoryCallbackMutex, INFINITE);`. -/
def waitMutex (r : Exec) : Exec :=
  r.emit (Event.WaitForSingleObject r.self.m_hOnDestoryCallbackMutex)

/-- Line `m_pOnDestoryCallback = callback;`. -/
def storeCallback (callback : OnDestoryCallback) (r : Exec) : Exec :=
  { r with self := { r.self with m_pOnDestoryCallback := callback } }

/-- Line `m_pOnDestoryCallbackParam = param;`. -/
def storeParam (param : Ptr) (r : Exec) : Exec :=
  { r with self := { r.self with m_pOnDestoryCallbackParam := param } }

/-- Line `ReleaseMutex(m_hOnDestoryCallbackMutex);`. -/
def releaseMutex (r : Exec) : Exec :=
  r.emit (Event.ReleaseMutex r.self.m_hOnDestoryCallbackMutex)

/-- Member function `setOnDestoryCallback(callback, param)`. -/
def setOnDestoryCallback (callback : OnDestoryCallback) (param : Ptr) (r : Exec) : Exec :=
  releaseMutex (storeParam param (storeCallback callback (waitMutex r)))

/-! ### The destructor, statement by statement -/

/-- Lines `if(m_pOnDestoryCallback) { m_pOnDestoryCallback(m_pOnDestoryCallbackParam); }`. -/
def fireCallback (r : Exec) : Exec :=
  if r.self.m_pOnDestoryCallback ≠ 0 then
    r.emit (Event.invoke r.self.m_pOnDestoryCallback r.self.m_pOnDestoryCallbackParam)
  else r

/-- Line `CloseHandle(m_hOnDestoryCallbackMutex);`. -/
def closeMutex (r : Exec) : Exec :=
  r.emit (Event.CloseHandle r.self.m_hOnDestoryCallbackMutex)

/-- The destructor up to, and not including, `ReleaseMutex`: the critical section. -/
def destructorCritical (r : Exec) : Exec :=
  fireCallback (waitMutex r)

/-- Destructor `~ILiteAVStreamDataSource()`. -/
def destructor (r : Exec) : Exec :=
  closeMutex (releaseMutex (destructorCritical r))

/-! ### The destructor, with the code of the callback explicit -/

/-- What the code behind a callback does when it is called: given the address of the
function and its argument, a transformation of the execution.  A callback that does not
call back into the instance leaves `self` as it is.  One that does call
`setOnDestoryCallback` on the instance is let in, since a Win32 mutex can be acquired
again by the thread that owns it, and changes `self`. -/
abbrev CallbackCode := OnDestoryCallback → Ptr → Exec → Exec

/-- A callback that returns without touching the object. -/
def quietCallback : CallbackCode :=
  fun _ _ r => r

/-- A callback that calls `setOnDestoryCallback(nullptr, nullptr)` on the instance. -/
def reentrantCallback : CallbackCode :=
  fun _ _ r => setOnDestoryCallback 0 0 r

/-- Lines `if(m_pOnDestoryCallback) { m_pOnDestoryCallback(m_pOnDestoryCallbackParam); }`,
the call running `code`. -/
def fireCallbackWith (code : CallbackCode) (r : Exec) : Exec :=
  if r.self.m_pOnDestoryCallback ≠ 0 then
    code r.self.m_pOnDestoryCallback r.self.m_pOnDestoryCallbackParam
      (r.emit (Event.invoke r.self.m_pOnDestoryCallback r.self.m_pOnDestoryCallbackParam))
  else r

/-- The destructor up to, and not including, `ReleaseMutex`, the callback running `code`. -/
def destructorCriticalWith (code : CallbackCode) (r : Exec) : Exec :=
  fireCallbackWith code (waitMutex r)

/-- Destructor `~ILiteAVStreamDataSource()`, the callback running `code`. -/
def destructorWith (code : CallbackCode) (r : Exec) : Exec :=
  closeMutex (releaseMutex (destructorCriticalWith code r))

/-! ### Histories and observations -/

/-- A finite history of `setOnDestoryCallback(f, c)` calls, oldest first. -/
def registerAll (calls : List (OnDestoryCallback × Ptr)) (r : Exec) : Exec :=
  calls.foldl (fun acc fc => setOnDestoryCallback fc.1 fc.2 acc) r

/-- The events the destructor itself performs when run on the object `s`. -/
def destructorTrace (s : ILiteAVStreamDataSource) : List Event :=
  (destructor { self := s, trace := [] }).trace

/-- The callback invocations of a trace, in order, as (function, argument) pairs. -/
def invocations : List Event → List (OnDestoryCallback × Ptr)
  | [] => []
  | Event.invoke f c :: rest => (f, c) :: invocations rest
  | _ :: rest => invocations rest

/-! ## Concurrent callers of `setOnDestoryCallback`

Thread `t` executes the call `calls[t]`, one statement of `setOnDestoryCallback` per step;
a schedule is the order in which the threads are given a step.  The statements are the
ones of the sequential definition above.  The mutex is the Win32 one: `WaitForSingleObject`
returns only while no other thread owns it, `ReleaseMutex` gives it up.  `CreateMutex` is
taken to have succeeded. -/

/-- A shared object, the owner of its mutex, and each thread's position in
`setOnDestoryCallback`: `0` before `WaitForSingleObject`, `1` mutex acquired,
`2` callback stored, `3` parameter stored, `4` mutex released and returned. -/
structure Concurrent where
  shared : Exec
  owner : Option Nat
  pc : Nat → Nat

/-- Move thread `t` to position `k`. -/
def Concurrent.goto (σ : Concurrent) (t k : Nat) : Nat → Nat :=
  fun j => if j = t then k else σ.pc j

/-- One step of thread `t`.  A thread waiting for a mutex that another thread owns,
a thread that has returned, and an index that is no thread, leave the state as it is. -/
def threadStep (calls : List (OnDestoryCallback × Ptr)) (t : Nat) (σ : Concurrent) :
    Concurrent :=
  match calls[t]? with
  | none => σ
  | some (callback, param) =>
    match σ.pc t with
    | 0 =>
      match σ.owner with
      | none => { shared := waitMutex σ.shared, owner := some t, pc := σ.goto t 1 }
      | some _ => σ
    | 1 => { σ with shared := storeCallback callback σ.shared, pc := σ.goto t 2 }
    | 2 => { σ with shared := storeParam param σ.shared, pc := σ.goto t 3 }
    | 3 => { shared := releaseMutex σ.shared, owner := none, pc := σ.goto t 4 }
    | _ => σ

/-- All threads are about to call `setOnDestoryCallback` on the object of `r`. -/
def Concurrent.start (r : Exec) : Concurrent :=
  { shared := r, owner := none, pc := fun _ => 0 }

/-- Run a schedule. -/
def runSchedule (calls : List (OnDestoryCallback × Ptr)) (schedule : List Nat)
    (σ : Concurrent) : Concurrent :=
  schedule.foldl (fun acc t => threadStep calls t acc) σ

/-- Every call has returned. -/
def allReturned (calls : List (OnDestoryCallback × Ptr)) (σ : Concurrent) : Prop :=
  ∀ t, t < calls.length → σ.pc t = 4

instance (calls : List (OnDestoryCallback × Ptr)) (σ : Concurrent) :
    Decidable (allReturned calls σ) :=
  inferInstanceAs (Decidable (∀ t, t < calls.length → σ.pc t = 4))

/-- The stored (callback, context) pair. -/
def storedPair (r : Exec) : OnDestoryCallback × Ptr :=
  (r.self.m_pOnDestoryCallback, r.self.m_pOnDestoryCallbackParam)

/-- What mutual exclusion maintains.  While no thread owns the mutex, every thread is
before its call or has returned, and if one has returned the stored pair is the pair of
one call.  While thread `t` owns it, `t` is inside its call and every other thread is
before its call or has returned; once `t` has stored its callback the stored callback is
the one of `t`, and once it has stored its parameter the stored pair is the pair of `t`. -/
def Exclusive (calls : List (OnDestoryCallback × Ptr)) (σ : Concurrent) : Prop :=
  match σ.owner with
  | none =>
    (∀ u, u < calls.length → σ.pc u = 0 ∨ σ.pc u = 4)
    ∧ ((∃ u, u < calls.length ∧ σ.pc u = 4) → ∃ k : Nat, calls[k]? = some (storedPair σ.shared))
  | some t =>
    t < calls.length
    ∧ (σ.pc t = 1 ∨ σ.pc t = 2 ∨ σ.pc t = 3)
    ∧ (∀ u, u < calls.length → u ≠ t → σ.pc u = 0 ∨ σ.pc u = 4)
    ∧ (σ.pc t = 2 → ∃ c, calls[t]? = some (σ.shared.self.m_pOnDestoryCallback, c))
    ∧ (σ.pc t = 3 → calls[t]? = some (storedPair σ.shared))

/-! ## The frame-pull protocol

`onRequestVideoFrame` and `onRequestAudioFrame` are pure virtual in the header: the
repository declares them and documents their parameters, and has no body for them. -/

/-- The value an `int` (32 bits on Win32) holds after a `uint32_t` byte count is
converted to it. -/
def toInt32 (n : Nat) : Int :=
  if n % 2 ^ 32 < 2 ^ 31 then ((n % 2 ^ 32 : Nat) : Int) else ((n % 2 ^ 32 : Nat) : Int) - 2 ^ 32

/-- A video sample the producer behind a source has ready. -/
structure VideoSample where
  videoFormat : LiteAVVideoPixelFormat
  width : Nat
  height : Nat
  timestamp : Nat
  rotation : LiteAVVideoRotation
  bytes : List Nat
  deriving DecidableEq, Repr

/-- An audio sample the producer behind a source has ready. -/
structure AudioSample where
  sampleRate : Nat
  channel : Nat
  timestamp : Nat
  bytes : List Nat
  deriving DecidableEq, Repr

/-- Modelled from the spec: the body of `onRequestVideoFrame`, which the header only
declares (`= 0`).  Section 4.1: the implementer writes as many bytes into `data` as fit
within the capacity supplied in `length`, sets the format, `width`, `height`, `timestamp`
and `rotation`, overwrites `length` with the number of bytes written and returns that
number; with no data ready it returns a negative value and leaves the buffer untouched
(section 8: `-1`).  `buffer` is the content of the memory `frame.data` points to. -/
def onRequestVideoFrame (ready : Option VideoSample) (buffer : List Nat)
    (frame : LiteAVVideoFrame) : Int × List Nat × LiteAVVideoFrame :=
  match ready with
  | none => (-1, buffer, frame)
  | some s =>
    let written := min s.bytes.length frame.length
    (toInt32 written, s.bytes.take written ++ buffer.drop written,
      { frame with
        videoFormat := s.videoFormat
        length := written
        width := s.width
        height := s.height
        timestamp := s.timestamp
        rotation := s.rotation })

/-- Modelled from the spec: the body of `onRequestAudioFrame`, which the header only
declares (`= 0`).  Section 4.1: identical shape to the video request, capacity in and
size out, `sampleRate` and `channel` required, PCM the only format, a negative return
for failure. -/
def onRequestAudioFrame (ready : Option AudioSample) (buffer : List Nat)
    (frame : LiteAVAudioFrame) : Int × List Nat × LiteAVAudioFrame :=
  match ready with
  | none => (-1, buffer, frame)
  | some s =>
    let written := min s.bytes.length frame.length
    (toInt32 written, s.bytes.take written ++ buffer.drop written,
      { frame with
        audioFormat := .LiteAVAudioFrameFormatPCM
        length := written
        sampleRate := s.sampleRate
        channel := s.channel
        timestamp := s.timestamp })

/-! ## Basic facts about the statements -/

@[simp]
theorem emit_self (e : Event) (r : Exec) : (r.emit e).self = r.self := rfl

@[simp]
theorem emit_trace (e : Event) (r : Exec) : (r.emit e).trace = r.trace ++ [e] := rfl

@[simp]
theorem invocations_append (xs ys : List Event) :
    invocations (xs ++ ys) = invocations xs ++ invocations ys := by
  induction xs with
  | nil => rfl
  | cons e rest ih => cases e <;> simp [invocations, ih]

theorem setOnDestoryCallback_self (f : OnDestoryCallback) (c : Ptr) (r : Exec) :
    (setOnDestoryCallback f c r).self =
      { r.self with m_pOnDestoryCallback := f, m_pOnDestoryCallbackParam := c } := rfl

theorem destructor_trace (r : Exec) :
    (destructor r).trace =
      r.trace ++ [Event.WaitForSingleObject r.self.m_hOnDestoryCallbackMutex]
        ++ (if r.self.m_pOnDestoryCallback ≠ 0 then
              [Event.invoke r.self.m_pOnDestoryCallback r.self.m_pOnDestoryCallbackParam]
            else [])
        ++ [Event.ReleaseMutex r.self.m_hOnDestoryCallbackMutex,
            Event.CloseHandle r.self.m_hOnDestoryCallbackMutex] := by
  by_cases h : r.self.m_pOnDestoryCallback = 0 <;>
    simp [destructor, destructorCritical, closeMutex, releaseMutex, fireCallback, waitMutex, h]

theorem destructorCritical_self (r : Exec) : (destructorCritical r).self = r.self := by
  unfold destructorCritical fireCallback
  split <;> simp [waitMutex]

theorem registerAll_append (xs ys : List (OnDestoryCallback × Ptr)) (r : Exec) :
    registerAll (xs ++ ys) r = registerAll ys (registerAll xs r) := by
  simp [registerAll, List.foldl_append]

theorem registerAll_handle (calls : List (OnDestoryCallback × Ptr)) (r : Exec) :
    (registerAll calls r).self.m_hOnDestoryCallbackMutex = r.self.m_hOnDestoryCallbackMutex := by
  induction calls generalizing r with
  | nil => rfl
  | cons fc rest ih =>
    have := ih (setOnDestoryCallback fc.1 fc.2 r)
    simpa [registerAll, setOnDestoryCallback_self] using this

theorem registerAll_invocations (calls : List (OnDestoryCallback × Ptr)) (r : Exec) :
    invocations (registerAll calls r).trace = invocations r.trace := by
  induction calls generalizing r with
  | nil => rfl
  | cons fc rest ih =>
    have := ih (setOnDestoryCallback fc.1 fc.2 r)
    simpa [registerAll, setOnDestoryCallback, releaseMutex, storeParam, storeCallback,
      waitMutex, invocations] using this

theorem registerAll_snoc_self (calls : List (OnDestoryCallback × Ptr)) (f : OnDestoryCallback)
    (c : Ptr) (r : Exec) :
    (registerAll (calls ++ [(f, c)]) r).self =
      { m_hOnDestoryCallbackMutex := r.self.m_hOnDestoryCallbackMutex
        m_pOnDestoryCallback := f
        m_pOnDestoryCallbackParam := c } := by
  rw [registerAll_append]
  have hh := registerAll_handle calls r
  show (setOnDestoryCallback f c (registerAll calls r)).self = _
  rw [setOnDestoryCallback_self]
  simp only [hh]

theorem destructorTrace_eq (s : ILiteAVStreamDataSource) :
    destructorTrace s =
      [Event.WaitForSingleObject s.m_hOnDestoryCallbackMutex]
        ++ (if s.m_pOnDestoryCallback ≠ 0 then
              [Event.invoke s.m_pOnDestoryCallback s.m_pOnDestoryCallbackParam]
            else [])
        ++ [Event.ReleaseMutex s.m_hOnDestoryCallbackMutex,
            Event.CloseHandle s.m_hOnDestoryCallbackMutex] := by
  simp [destructorTrace, destructor_trace]

theorem destructorTrace_invocations (s : ILiteAVStreamDataSource) :
    invocations (destructorTrace s) =
      if s.m_pOnDestoryCallback ≠ 0 then [(s.m_pOnDestoryCallback, s.m_pOnDestoryCallbackParam)]
      else [] := by
  rw [destructorTrace_eq]
  by_cases h : s.m_pOnDestoryCallback = 0 <;> simp [invocations, h]

/-! ## The destruction notification, sequentially -/

/-- C1: on a freshly constructed source, after any non-empty sequence of
`setOnDestoryCallback` calls whose last pair is `(f, c)` with `f` non-null, the callback
invocations the destructor makes are exactly `[(f, c)]`: `f` once with `c`, and no pair of
an earlier registration.  The registrations themselves invoke nothing, so this is also the
list of invocations over the whole life of the object. -/
theorem last_registration_fires_once (h : HANDLE) (calls : List (OnDestoryCallback × Ptr))
    (f : OnDestoryCallback) (c : Ptr) (hf : f ≠ 0) :
    invocations (destructorTrace
        (registerAll (calls ++ [(f, c)])
          (ILiteAVStreamDataSource.ILiteAVStreamDataSource h)).self) = [(f, c)]
    ∧ invocations (destructor
        (registerAll (calls ++ [(f, c)])
          (ILiteAVStreamDataSource.ILiteAVStreamDataSource h))).trace = [(f, c)] := by
  constructor
  · rw [destructorTrace_invocations, registerAll_snoc_self]
    simp [hf]
  · rw [destructor_trace]
    simp only [invocations_append, registerAll_invocations, registerAll_snoc_self]
    simp [invocations, ILiteAVStreamDataSource.ILiteAVStreamDataSource, hf]

/-- Witness for C1: registrations `(5, 6)`, `(0, 9)`, `(7, 8)` on a fresh source with mutex
handle `1`; the destructor invokes `7` with `8` and nothing else. -/
theorem last_registration_fires_once_witness :
    (7 : OnDestoryCallback) ≠ 0
    ∧ invocations (destructorTrace
        (registerAll ([(5, 6), (0, 9)] ++ [(7, 8)])
          (ILiteAVStreamDataSource.ILiteAVStreamDataSource 1)).self) = [(7, 8)]
    ∧ invocations (destructor
        (registerAll ([(5, 6), (0, 9)] ++ [(7, 8)])
          (ILiteAVStreamDataSource.ILiteAVStreamDataSource 1))).trace = [(7, 8)] :=
  ⟨by decide, last_registration_fires_once 1 [(5, 6), (0, 9)] 7 8 (by decide)⟩

/-- C2: a source on which `setOnDestoryCallback` was never called has a null stored
callback and a null stored context, and its destructor invokes no callback and still
completes: it waits for the mutex, releases it and closes the handle, and does nothing
else. -/
theorem no_registration_no_callback (h : HANDLE) :
    (ILiteAVStreamDataSource.ILiteAVStreamDataSource h).self.m_pOnDestoryCallback = 0
    ∧ (ILiteAVStreamDataSource.ILiteAVStreamDataSource h).self.m_pOnDestoryCallbackParam = 0
    ∧ invocations (destructorTrace (ILiteAVStreamDataSource.ILiteAVStreamDataSource h).self) = []
    ∧ destructorTrace (ILiteAVStreamDataSource.ILiteAVStreamDataSource h).self =
        [Event.WaitForSingleObject h, Event.ReleaseMutex h, Event.CloseHandle h] := by
  refine ⟨rfl, rfl, ?_, ?_⟩
  · rw [destructorTrace_invocations]; rfl
  · rw [destructorTrace_eq]; rfl

/-- C3: for every source state and every finite history of `setOnDestoryCallback` calls
(the empty one and ones with null functions included), one run of the destructor makes at
most one callback invocation. -/
theorem destructor_fires_at_most_once (r : Exec) (calls : List (OnDestoryCallback × Ptr)) :
    (invocations (destructorTrace (registerAll calls r).self)).length ≤ 1 := by
  rw [destructorTrace_invocations]
  split <;> simp

/-- C4: for every stored (callback, context) state the destructor performs, in this order:
`WaitForSingleObject` on the mutex; the invocation of the stored callback with the stored
context if and only if the stored callback is non-null; `ReleaseMutex`; `CloseHandle`.
Any callback invocation in the destructor's trace therefore has exactly the acquire before
it and exactly the release followed by the close after it. -/
theorem destructor_order (s : ILiteAVStreamDataSource) :
    destructorTrace s =
      [Event.WaitForSingleObject s.m_hOnDestoryCallbackMutex]
        ++ (if s.m_pOnDestoryCallback ≠ 0 then
              [Event.invoke s.m_pOnDestoryCallback s.m_pOnDestoryCallbackParam]
            else [])
        ++ [Event.ReleaseMutex s.m_hOnDestoryCallbackMutex,
            Event.CloseHandle s.m_hOnDestoryCallbackMutex]
    ∧ ∀ (pre post : List Event) (f : OnDestoryCallback) (c : Ptr),
        destructorTrace s = pre ++ Event.invoke f c :: post →
          pre = [Event.WaitForSingleObject s.m_hOnDestoryCallbackMutex]
          ∧ post = [Event.ReleaseMutex s.m_hOnDestoryCallbackMutex,
                    Event.CloseHandle s.m_hOnDestoryCallbackMutex]
          ∧ f = s.m_pOnDestoryCallback ∧ c = s.m_pOnDestoryCallbackParam := by
  refine ⟨destructorTrace_eq s, ?_⟩
  intro pre post f c hsplit
  rw [destructorTrace_eq] at hsplit
  by_cases h0 : s.m_pOnDestoryCallback = 0
  · simp [h0] at hsplit
    rcases pre with _ | ⟨a, _ | ⟨b, _ | ⟨d, pre⟩⟩⟩ <;> simp at hsplit
  · simp [h0] at hsplit
    rcases pre with _ | ⟨a, _ | ⟨b, _ | ⟨d, _ | ⟨e, pre⟩⟩⟩⟩ <;> simp at hsplit
    obtain ⟨ha, ⟨hf, hc⟩, hpost⟩ := hsplit
    exact ⟨by rw [ha], hpost.symm, hf.symm, hc.symm⟩

/-- With a callback that does not touch the object, `destructorWith` is `destructor`. -/
theorem destructorWith_quiet (r : Exec) : destructorWith quietCallback r = destructor r := by
  simp [destructorWith, destructor, destructorCriticalWith, destructorCritical,
    fireCallbackWith, fireCallback, quietCallback]

/-- The condition on the callback in the amended C9 is needed: a callback that calls
`setOnDestoryCallback(nullptr, nullptr)` on the instance leaves a null pair behind. -/
theorem reentrant_callback_changes_members :
    storedPair (destructorCriticalWith reentrantCallback
        (setOnDestoryCallback 2 3 (ILiteAVStreamDataSource.ILiteAVStreamDataSource 1)))
      = (0, 0) := by
  decide

/-- C10: whether the destructor fires depends on the stored function pointer alone.  After
any history whose last call is `setOnDestoryCallback(nullptr, c)`, for any context `c`, the
destructor invokes nothing, whatever was registered before; after any history whose last
call is `setOnDestoryCallback(f, nullptr)` with `f` non-null, the destructor invokes `f`
once with the null context. -/
theorem firing_depends_on_function_only (r : Exec) (calls : List (OnDestoryCallback × Ptr)) :
    (∀ c : Ptr,
      invocations (destructorTrace (registerAll (calls ++ [(0, c)]) r).self) = [])
    ∧ (∀ f : OnDestoryCallback, f ≠ 0 →
      invocations (destructorTrace (registerAll (calls ++ [(f, NULL)]) r).self)
        = [(f, NULL)]) := by
  constructor
  · intro c
    rw [destructorTrace_invocations, registerAll_snoc_self]
    simp
  · intro f hf
    rw [destructorTrace_invocations, registerAll_snoc_self]
    simp [hf]

/-- Witness for C10: on a fresh source with mutex handle `1`, after `(5, 6)` then
`(7, nullptr)` the destructor invokes `7` with the null context. -/
theorem firing_depends_on_function_only_witness :
    (7 : OnDestoryCallback) ≠ 0
    ∧ invocations (destructorTrace
        (registerAll ([(5, 6)] ++ [(7, NULL)])
          (ILiteAVStreamDataSource.ILiteAVStreamDataSource 1)).self) = [(7, NULL)] :=
  ⟨by decide,
    (firing_depends_on_function_only (ILiteAVStreamDataSource.ILiteAVStreamDataSource 1)
      [(5, 6)]).2 7 (by decide)⟩

/-! ## Frame descriptors -/

/-- C5: a default-constructed `LiteAVVideoFrame` has `videoFormat` Unknown, `data` null,
`textureId` -1, `length` 0, `width` 640, `height` 360, `timestamp` 0 and `rotation`
`LiteAVVideoRotation0`, which is 0 degrees; this whatever the uninitialised `bufferType`
happens to hold. -/
theorem videoFrame_default (indeterminate : LiteAVVideoBufferType) :
    (LiteAVVideoFrame.LiteAVVideoFrame indeterminate).videoFormat
        = LiteAVVideoPixelFormat.LiteAVVideoPixelFormat_Unknown
    ∧ (LiteAVVideoFrame.LiteAVVideoFrame indeterminate).data = NULL
    ∧ (LiteAVVideoFrame.LiteAVVideoFrame indeterminate).textureId = -1
    ∧ (LiteAVVideoFrame.LiteAVVideoFrame indeterminate).length = 0
    ∧ (LiteAVVideoFrame.LiteAVVideoFrame indeterminate).width = 640
    ∧ (LiteAVVideoFrame.LiteAVVideoFrame indeterminate).height = 360
    ∧ (LiteAVVideoFrame.LiteAVVideoFrame indeterminate).timestamp = 0
    ∧ (LiteAVVideoFrame.LiteAVVideoFrame indeterminate).rotation
        = LiteAVVideoRotation.LiteAVVideoRotation0
    ∧ (LiteAVVideoFrame.LiteAVVideoFrame indeterminate).rotation.degrees = 0 :=
  ⟨rfl, rfl, rfl, rfl, rfl, rfl, rfl, rfl, rfl⟩

/-- C6: a default-constructed `LiteAVAudioFrame` has `audioFormat` None, `data` null,
`sampleRate` 48000, `channel` 1 and `timestamp` 0; this whatever the uninitialised `length`
happens to hold. -/
theorem audioFrame_default (indeterminate : Nat) :
    (LiteAVAudioFrame.LiteAVAudioFrame indeterminate).audioFormat
        = LiteAVAudioFrameFormat.LiteAVAudioFrameFormatNone
    ∧ (LiteAVAudioFrame.LiteAVAudioFrame indeterminate).data = NULL
    ∧ (LiteAVAudioFrame.LiteAVAudioFrame indeterminate).sampleRate = 48000
    ∧ (LiteAVAudioFrame.LiteAVAudioFrame indeterminate).channel = 1
    ∧ (LiteAVAudioFrame.LiteAVAudioFrame indeterminate).timestamp = 0 :=
  ⟨rfl, rfl, rfl, rfl, rfl⟩

/-! ## The frame-pull protocol -/

theorem toInt32_le (n : Nat) : toInt32 n ≤ (n : Int) := by
  unfold toInt32
  have h : n % 2 ^ 32 ≤ n := Nat.mod_le _ _
  split <;> omega

/-- C7: whenever `onRequestVideoFrame`, respectively `onRequestAudioFrame`, returns a
non-negative value, that value is no greater than the `length` the frame held at call
entry. -/
theorem request_within_capacity :
    (∀ (ready : Option VideoSample) (buffer : List Nat) (frame : LiteAVVideoFrame),
      0 ≤ (onRequestVideoFrame ready buffer frame).1 →
        (onRequestVideoFrame ready buffer frame).1 ≤ (frame.length : Int))
    ∧ (∀ (ready : Option AudioSample) (buffer : List Nat) (frame : LiteAVAudioFrame),
      0 ≤ (onRequestAudioFrame ready buffer frame).1 →
        (onRequestAudioFrame ready buffer frame).1 ≤ (frame.length : Int)) := by
  constructor
  · intro ready buffer frame h
    cases ready with
    | none => simp [onRequestVideoFrame] at h
    | some s =>
      have h1 := toInt32_le (min s.bytes.length frame.length)
      have h2 : min s.bytes.length frame.length ≤ frame.length := Nat.min_le_right _ _
      simp only [onRequestVideoFrame]
      omega
  · intro ready buffer frame h
    cases ready with
    | none => simp [onRequestAudioFrame] at h
    | some s =>
      have h1 := toInt32_le (min s.bytes.length frame.length)
      have h2 : min s.bytes.length frame.length ≤ frame.length := Nat.min_le_right _ _
      simp only [onRequestAudioFrame]
      omega

/-- Witness for C7.  Video: with a capacity of 100 bytes and 40 bytes ready the request
returns 40 and sets `length` to 40.  Audio: with a capacity of 100 bytes and 120 bytes
ready the request returns 100.  With nothing ready the video request returns -1 and leaves
buffer and frame as they were. -/
theorem request_within_capacity_witness :
    ((0 : Int) ≤ (onRequestVideoFrame
        (some { videoFormat := .LiteAVVideoPixelFormat_I420, width := 4, height := 4,
                timestamp := 0, rotation := .LiteAVVideoRotation0,
                bytes := List.replicate 40 7 })
        (List.replicate 100 0)
        { LiteAVVideoFrame.LiteAVVideoFrame .LiteAVVideoBufferType_Buffer with
          data := 4096, length := 100 }).1
      ∧ (onRequestVideoFrame
        (some { videoFormat := .LiteAVVideoPixelFormat_I420, width := 4, height := 4,
                timestamp := 0, rotation := .LiteAVVideoRotation0,
                bytes := List.replicate 40 7 })
        (List.replicate 100 0)
        { LiteAVVideoFrame.LiteAVVideoFrame .LiteAVVideoBufferType_Buffer with
          data := 4096, length := 100 }).1 ≤ ((100 : Nat) : Int))
    ∧ ((0 : Int) ≤ (onRequestAudioFrame
        (some { sampleRate := 48000, channel := 1, timestamp := 0,
                bytes := List.replicate 120 7 })
        (List.replicate 100 0)
        { LiteAVAudioFrame.LiteAVAudioFrame 100 with data := 4096 }).1
      ∧ (onRequestAudioFrame
        (some { sampleRate := 48000, channel := 1, timestamp := 0,
                bytes := List.replicate 120 7 })
        (List.replicate 100 0)
        { LiteAVAudioFrame.LiteAVAudioFrame 100 with data := 4096 }).1 ≤ ((100 : Nat) : Int))
    ∧ ((onRequestVideoFrame
        (some { videoFormat := .LiteAVVideoPixelFormat_I420, width := 4, height := 4,
                timestamp := 0, rotation := .LiteAVVideoRotation0,
                bytes := List.replicate 40 7 })
        (List.replicate 100 0)
        { LiteAVVideoFrame.LiteAVVideoFrame .LiteAVVideoBufferType_Buffer with
          data := 4096, length := 100 }).1 = 40
      ∧ (onRequestVideoFrame
        (some { videoFormat := .LiteAVVideoPixelFormat_I420, width := 4, height := 4,
                timestamp := 0, rotation := .LiteAVVideoRotation0,
                bytes := List.replicate 40 7 })
        (List.replicate 100 0)
        { LiteAVVideoFrame.LiteAVVideoFrame .LiteAVVideoBufferType_Buffer with
          data := 4096, length := 100 }).2.2.length = 40
      ∧ (onRequestAudioFrame
        (some { sampleRate := 48000, channel := 1, timestamp := 0,
                bytes := List.replicate 120 7 })
        (List.replicate 100 0)
        { LiteAVAudioFrame.LiteAVAudioFrame 100 with data := 4096 }).1 = 100
      ∧ onRequestVideoFrame none (List.replicate 100 0)
          { LiteAVVideoFrame.LiteAVVideoFrame .LiteAVVideoBufferType_Buffer with
            data := 4096, length := 100 }
        = (-1, List.replicate 100 0,
            { LiteAVVideoFrame.LiteAVVideoFrame .LiteAVVideoBufferType_Buffer with
              data := 4096, length := 100 })) :=
  ⟨⟨by decide,
      request_within_capacity.1
        (some { videoFormat := .LiteAVVideoPixelFormat_I420, width := 4, height := 4,
                timestamp := 0, rotation := .LiteAVVideoRotation0,
                bytes := List.replicate 40 7 })
        (List.replicate 100 0)
        { LiteAVVideoFrame.LiteAVVideoFrame .LiteAVVideoBufferType_Buffer with
          data := 4096, length := 100 }
        (by decide)⟩,
    ⟨by decide,
      request_within_capacity.2
        (some { sampleRate := 48000, channel := 1, timestamp := 0,
                bytes := List.replicate 120 7 })
        (List.replicate 100 0)
        { LiteAVAudioFrame.LiteAVAudioFrame 100 with data := 4096 }
        (by decide)⟩,
    by decide⟩

/-! ## Concurrent registration -/

theorem exclusive_start (calls : List (OnDestoryCallback × Ptr)) (r : Exec) :
    Exclusive calls (Concurrent.start r) := by
  simp [Exclusive, Concurrent.start]

theorem exclusive_owner (calls : List (OnDestoryCallback × Ptr)) (u : Nat) (σ : Concurrent)
    (hinv : Exclusive calls σ) (hu : u < calls.length)
    (hpc : σ.pc u = 1 ∨ σ.pc u = 2 ∨ σ.pc u = 3) : σ.owner = some u := by
  cases hown : σ.owner with
  | none =>
    simp only [Exclusive, hown] at hinv
    have := hinv.1 u hu
    omega
  | some t =>
    simp only [Exclusive, hown] at hinv
    by_cases hut : u = t
    · rw [hut]
    · have := hinv.2.2.1 u hu hut
      omega

theorem exclusive_threadStep (calls : List (OnDestoryCallback × Ptr)) (u : Nat)
    (σ : Concurrent) (hinv : Exclusive calls σ) : Exclusive calls (threadStep calls u σ) := by
  unfold threadStep
  split
  · exact hinv
  · rename_i callback param hcall
    have hu : u < calls.length := by
      rcases Nat.lt_or_ge u calls.length with h | h
      · exact h
      · rw [List.getElem?_eq_none h] at hcall; cases hcall
    split
    · rename_i hpc
      split
      · rename_i hown
        simp only [Exclusive, hown] at hinv
        simp only [Exclusive, Concurrent.goto]
        refine ⟨hu, by simp, ?_, by simp, by simp⟩
        intro v hv hvu
        simpa [hvu] using hinv.1 v hv
      · exact hinv
    · rename_i hpc
      have hown := exclusive_owner calls u σ hinv hu (Or.inl hpc)
      simp only [Exclusive, hown] at hinv
      simp only [Exclusive, hown, Concurrent.goto, storeCallback]
      refine ⟨hu, by simp, ?_, ?_, by simp⟩
      · intro v hv hvu
        simpa [hvu] using hinv.2.2.1 v hv hvu
      · intro _
        exact ⟨param, hcall⟩
    · rename_i hpc
      have hown := exclusive_owner calls u σ hinv hu (Or.inr (Or.inl hpc))
      simp only [Exclusive, hown] at hinv
      simp only [Exclusive, hown, Concurrent.goto, storeParam, storedPair]
      refine ⟨hu, by simp, ?_, by simp, ?_⟩
      · intro v hv hvu
        simpa [hvu] using hinv.2.2.1 v hv hvu
      · intro _
        obtain ⟨c0, hc0⟩ := hinv.2.2.2.1 hpc
        rw [hcall] at hc0
        have hcb : callback = σ.shared.self.m_pOnDestoryCallback := by
          have := Option.some.inj hc0
          exact congrArg Prod.fst this
        rw [hcall, hcb]
    · rename_i hpc
      have hown := exclusive_owner calls u σ hinv hu (Or.inr (Or.inr hpc))
      simp only [Exclusive, hown] at hinv
      simp only [Exclusive, Concurrent.goto]
      refine ⟨?_, ?_⟩
      · intro v hv
        by_cases hvu : v = u
        · simp [hvu]
        · simpa [hvu] using hinv.2.2.1 v hv hvu
      · intro _
        exact ⟨u, by simpa [storedPair, releaseMutex] using hinv.2.2.2.2 hpc⟩
    · exact hinv

theorem exclusive_runSchedule (calls : List (OnDestoryCallback × Ptr)) (schedule : List Nat)
    (σ : Concurrent) (hinv : Exclusive calls σ) :
    Exclusive calls (runSchedule calls schedule σ) := by
  induction schedule generalizing σ with
  | nil => exact hinv
  | cons t rest ih => exact ih (threadStep calls t σ) (exclusive_threadStep calls t σ hinv)

/-- C8: several threads each call `setOnDestoryCallback(f_i, c_i)` on one source, whose
members may hold anything beforehand.  In every interleaving of their statements under
the mutex, once all the calls have returned the stored (callback, context) pair is the
pair `(f_k, c_k)` of a single call `k`, and the mutex is free. -/
theorem concurrent_registration_stores_one_pair (r : Exec)
    (calls : List (OnDestoryCallback × Ptr)) (schedule : List Nat) (hne : calls ≠ [])
    (hdone : allReturned calls (runSchedule calls schedule (Concurrent.start r))) :
    (∃ k : Nat, k < calls.length
      ∧ calls[k]? = some (storedPair (runSchedule calls schedule (Concurrent.start r)).shared))
    ∧ (runSchedule calls schedule (Concurrent.start r)).owner = none := by
  have hinv := exclusive_runSchedule calls schedule _ (exclusive_start calls r)
  have hpos : 0 < calls.length := List.length_pos.mpr hne
  cases hown : (runSchedule calls schedule (Concurrent.start r)).owner with
  | some t =>
    simp only [Exclusive, hown] at hinv
    have := hdone t hinv.1
    omega
  | none =>
    simp only [Exclusive, hown] at hinv
    obtain ⟨k, hk⟩ := hinv.2 ⟨0, hpos, hdone 0 hpos⟩
    refine ⟨⟨k, ?_, hk⟩, rfl⟩
    rcases Nat.lt_or_ge k calls.length with h | h
    · exact h
    · rw [List.getElem?_eq_none h] at hk; cases hk

/-- Witness for C8: thread 0 calls `setOnDestoryCallback(1, 2)` and thread 1 calls
`setOnDestoryCallback(3, 4)` on a fresh source with mutex handle `9`.  Thread 0 acquires
the mutex and stores its callback, thread 1 is scheduled three times and waits, thread 0
finishes, thread 1 runs: both calls return and the pair `(3, 4)` is stored. -/
theorem concurrent_registration_stores_one_pair_witness :
    [((1 : OnDestoryCallback), (2 : Ptr)), (3, 4)] ≠ []
    ∧ allReturned [(1, 2), (3, 4)]
        (runSchedule [(1, 2), (3, 4)] [0, 0, 1, 1, 1, 0, 0, 1, 1, 1, 1]
          (Concurrent.start (ILiteAVStreamDataSource.ILiteAVStreamDataSource 9)))
    ∧ storedPair (runSchedule [(1, 2), (3, 4)] [0, 0, 1, 1, 1, 0, 0, 1, 1, 1, 1]
          (Concurrent.start (ILiteAVStreamDataSource.ILiteAVStreamDataSource 9))).shared
        = (3, 4)
    ∧ ((∃ k : Nat, k < [((1 : OnDestoryCallback), (2 : Ptr)), (3, 4)].length
        ∧ [((1 : OnDestoryCallback), (2 : Ptr)), (3, 4)][k]? = some (storedPair
            (runSchedule [(1, 2), (3, 4)] [0, 0, 1, 1, 1, 0, 0, 1, 1, 1, 1]
              (Concurrent.start (ILiteAVStreamDataSource.ILiteAVStreamDataSource 9))).shared))
      ∧ (runSchedule [(1, 2), (3, 4)] [0, 0, 1, 1, 1, 0, 0, 1, 1, 1, 1]
          (Concurrent.start (ILiteAVStreamDataSource.ILiteAVStreamDataSource 9))).owner
          = none) :=
  ⟨by decide, by decide, by decide,
    concurrent_registration_stores_one_pair
      (ILiteAVStreamDataSource.ILiteAVStreamDataSource 9) [(1, 2), (3, 4)]
      [0, 0, 1, 1, 1, 0, 0, 1, 1, 1, 1] (by decide) (by decide)⟩

end TXLiteAVBase
